import Mathlib

/-!
Verification of the resilient fetch-parse-load ETL pipeline
(`src/etl_connector.py`).

The Python source is shallowly embedded:

* `safe_get` is modelled as a function over a *script*: the list of
  outcomes (`GetResult`) that the successive `session.get` calls would
  produce.  The model returns the outcome of the call together with the
  list of `time.sleep` calls performed (recorded symbolically as
  `SleepSpec`, one constructor per `time.sleep` site in the source, and
  interpreted as exact rational durations by `SleepSpec.duration` — the
  relevant floats `1.5 ** n` are exact for small `n`) and the number of
  GET requests issued.  `none` means the script was too short to
  determine the behaviour (the real loop would issue further requests).
* `parse_ip_list` is embedded directly; the Python `str.splitlines`,
  `str.strip`, `str.split()[0]`, `int()` and `ipaddress.ip_address`
  validation are embedded for ASCII inputs (protocol bodies and
  headers are ASCII; the exotic Unicode digit/whitespace classes accepted
  by CPython are not modelled).
* `safe_insert_many` is modelled over an abstract persistence outcome
  (`InsertOutcome`): success with the acknowledged id count, a
  `BulkWriteError` carrying `details["nInserted"]`, or any other
  exception.  The model also records whether `insert_many` was invoked.
-/

/-- Characters stripped by Python `str.strip()` (ASCII whitespace). -/
def pyIsSpace (c : Char) : Bool :=
  c == ' ' || c == '\t' || c == '\n' || c == '\r' || c == '\x0b' || c == '\x0c'

/-- Python `str.strip()` on ASCII text: drop whitespace from both ends. -/
def pyStrip (s : String) : String :=
  String.mk (((s.toList.dropWhile pyIsSpace).reverse.dropWhile pyIsSpace).reverse)

/-- Helper for `pySplitlines`: accumulates the current line (reversed). -/
def pySplitlinesAux : List Char → List Char → List String
  | [], acc => match acc with
    | [] => []
    | _ => [String.mk acc.reverse]
  | '\r' :: '\n' :: rest, acc => String.mk acc.reverse :: pySplitlinesAux rest []
  | '\r' :: rest, acc => String.mk acc.reverse :: pySplitlinesAux rest []
  | '\n' :: rest, acc => String.mk acc.reverse :: pySplitlinesAux rest []
  | c :: rest, acc => pySplitlinesAux rest (c :: acc)

/-- Python `str.splitlines()` for the line breaks occurring in the
protocol plain-text bodies (`\n`, `\r`, `\r\n`); a trailing break does
not produce an extra empty line. -/
def pySplitlines (s : String) : List String :=
  pySplitlinesAux s.toList []

/-- Python `line.startswith("#")`: the first character is '#'. -/
def startsWithHash (s : String) : Bool :=
  s.toList.headD ' ' == '#'

/-- Python `line.split()[0]` on a stripped, non-blank line: the first
maximal run of non-whitespace characters. -/
def firstToken (s : String) : String :=
  String.mk (s.toList.takeWhile (fun c => !pyIsSpace c))

/-- Python `str.split(sep)` for a one-character separator (also the
semantics of the CPython `ip_str.split(':')` / `split('.')` /
`partition`-style splits used by `ipaddress`). -/
def splitOnChar (sep : Char) : List Char → List (List Char)
  | [] => [[]]
  | c :: rest =>
    let gs := splitOnChar sep rest
    if c == sep then [] :: gs
    else
      match gs with
      | g :: gs2 => (c :: g) :: gs2
      | [] => [[c]]

/-- Numeric value of a decimal digit string (digits already validated). -/
def digitsVal (cs : List Char) : Nat :=
  cs.foldl (fun a c => a * 10 + (c.toNat - 48)) 0

/-- One dotted-quad octet, per CPython `ipaddress._parse_octet`: non-empty,
decimal digits only, at most 3 characters, no leading zero unless the
octet is exactly "0", and value at most 255. -/
def isValidOctet (cs : List Char) : Bool :=
  !cs.isEmpty && cs.all Char.isDigit && cs.length ≤ 3 &&
    (cs == ['0'] || cs.headD ' ' != '0') && digitsVal cs ≤ 255

/-- CPython `IPv4Address` string acceptance: four '.'-separated valid
octets (a '/' anywhere makes some octet invalid since '/' is not a digit). -/
def isValidIPv4 (cs : List Char) : Bool :=
  let parts := splitOnChar '.' cs
  parts.length == 4 && parts.all isValidOctet

/-- Hexadecimal digit (ASCII), as in the CPython `_HEX_DIGITS` set. -/
def isHexDigitChar (c : Char) : Bool :=
  c.isDigit || ('a' ≤ c && c ≤ 'f') || ('A' ≤ c && c ≤ 'F')

/-- One IPv6 hextet, per CPython `ipaddress._parse_hextet`: non-empty, at
most 4 characters, hex digits only. -/
def isHextet (cs : List Char) : Bool :=
  !cs.isEmpty && cs.length ≤ 4 && cs.all isHexDigitChar

/-- CPython `IPv6Address._ip_int_from_string` acceptance (validity only):
split on ':'; at least 3 parts; a trailing dotted-quad is replaced by two
synthetic hextets; at most 9 parts; at most one empty interior part
(the `::`), with a boundary empty part only directly adjacent to it; the
remaining explicit parts are valid hextets and leave at least one
skipped zero group. -/
def isValidIPv6core (cs : List Char) : Bool :=
  let parts0 := splitOnChar ':' cs
  if parts0.length < 3 then false
  else
    let lastP := parts0.getLastD []
    let hasDot := lastP.contains '.'
    if hasDot && !isValidIPv4 lastP then false
    else
      let parts := if hasDot then parts0.dropLast ++ [['0'], ['0']] else parts0
      let n := parts.length
      if 9 < n then false
      else
        let interior := (List.range n).filter
          (fun i => decide (1 ≤ i) && decide (i < n - 1) && (parts.getD i ['x']).isEmpty)
        match interior with
        | [] =>
          n == 8 && !(parts.getD 0 []).isEmpty && !(parts.getLastD []).isEmpty &&
            parts.all isHextet
        | [i] =>
          let headEmpty := (parts.getD 0 ['x']).isEmpty
          let lastEmpty := (parts.getLastD ['x']).isEmpty
          if headEmpty && i != 1 then false
          else if lastEmpty && i + 2 != n then false
          else
            let hi := if headEmpty then 0 else i
            let lo := if lastEmpty then 0 else n - i - 1
            if 7 < hi + lo then false
            else (parts.take hi).all isHextet && (parts.drop (n - lo)).all isHextet
        | _ => false

/-- CPython `IPv6Address._split_scope_id`: at most one '%', splitting off a
non-empty scope id; returns the address part when the scope is legal. -/
def stripScopeId (cs : List Char) : Option (List Char) :=
  match splitOnChar '%' cs with
  | [a] => some a
  | [a, sc] => if sc.isEmpty then none else some a
  | _ => none

/-- Python `ipaddress.ip_address(token)` success on an ASCII token: first
try IPv4, then IPv6 (with optional scope id; a '/' is rejected outright by
`IPv6Address.__init__`). -/
def ip_address_valid (s : String) : Bool :=
  let cs := s.toList
  isValidIPv4 cs ||
    (!cs.contains '/' &&
      match stripScopeId cs with
      | some a => isValidIPv6core a
      | none => false)

/-- Digit run accepted by Python `int()` after sign handling: non-empty,
and every '_' sits between two digits. -/
def validUDigits (l : List Char) : Bool :=
  !l.isEmpty && (splitOnChar '_' l).all (fun g => !g.isEmpty && g.all Char.isDigit)

/-- Value of a digit run, skipping the (already validated) underscores. -/
def digitsUVal (l : List Char) : Nat :=
  l.foldl (fun a c => if c == '_' then a else a * 10 + (c.toNat - 48)) 0

/-- Python `int(s)` on an ASCII string: strip whitespace, optional sign,
digits with single underscores between digits; `none` models the
`ValueError` raised otherwise. -/
def pyInt (s : String) : Option Int :=
  match (pyStrip s).toList with
  | '+' :: rest => if validUDigits rest then some (digitsUVal rest : Int) else none
  | '-' :: rest => if validUDigits rest then some (-(digitsUVal rest : Int)) else none
  | rest => if validUDigits rest then some (digitsUVal rest : Int) else none

/-- One document built by `parse_ip_list` (the dict literal at
src/etl_connector.py:113-118); `fetched_at` models the shared
`datetime.utcnow()` capture. -/
structure IPDoc where
  ip : String
  service : String
  source : String
  fetched_at : Nat
deriving DecidableEq

/-- The body of the `parse_ip_list` loop for one raw line: strip, skip a
blank or '#'-comment line, take the first token, keep it only when
`ipaddress.ip_address` accepts it. -/
def parseLine (service : String) (now : Nat) (raw : String) : Option IPDoc :=
  let line := pyStrip raw
  if line.isEmpty || startsWithHash line then none
  else if ip_address_valid (firstToken line) then
    some ⟨firstToken line, service, "blocklist.de/lists", now⟩
  else none

/-- The `parse_ip_list` loop over the line list. -/
def parseLines (lines : List String) (service : String) (now : Nat) : List IPDoc :=
  lines.filterMap (parseLine service now)

/-- Embedding of `parse_ip_list(text, service)` from src/etl_connector.py:95-119, with
the single `datetime.utcnow()` capture passed in as `now`. -/
def parse_ip_list (text : String) (service : String) (now : Nat) : List IPDoc :=
  parseLines (pySplitlines text) service now

/-- A stripped line survives the blank/comment filter of the loop. -/
def isKeptLine (l : String) : Bool :=
  !(l.isEmpty || startsWithHash l)

/-- The stripped lines of a body that survive the blank/comment filter:
exactly the lines for which the loop reaches the token validation. -/
def keptLines (text : String) : List String :=
  ((pySplitlines text).map pyStrip).filter isKeptLine

/-- One `time.sleep` call of `safe_get`, recorded symbolically by call
site: `backoffExp n` is the sleep `BACKOFF_FACTOR ** n` at
src/etl_connector.py:72-74 and :87-90, `fixedDelay d` the rate-limit
sleep of the parsed `Retry-After` value at src/etl_connector.py:59. -/
inductive SleepSpec where
  | backoffExp (n : Nat)
  | fixedDelay (d : Int)
deriving DecidableEq

/-- The duration in seconds of a recorded sleep, for a given
`BACKOFF_FACTOR` `B`. -/
def SleepSpec.duration (B : ℚ) : SleepSpec → ℚ
  | .backoffExp n => B ^ n
  | .fixedDelay d => (d : ℚ)

/-- Outcome of one `session.get` call: a response (status, optional
`Retry-After` header, body text) or a transport-level
`requests.RequestException`. -/
structure Response where
  status : Nat
  retryAfter : Option String
  text : String
deriving DecidableEq

/-- One scripted GET outcome. -/
inductive GetResult where
  | ok (r : Response)
  | exn
deriving DecidableEq

/-- How a `safe_get` call terminates. -/
inductive FetchOutcome where
  /-- Normal return of `resp` on a non-empty 200 body. -/
  | success (r : Response)
  /-- The `ValueError` on an empty payload, uncaught (a `ValueError` is
  not a `RequestException`). -/
  | emptyPayload
  /-- The `ValueError` from the `int()` conversion of the retry header,
  uncaught. -/
  | retryAfterValueError
  /-- The `ValueError` from `time.sleep` on a negative parsed delay, uncaught. -/
  | negativeSleepError
  /-- The `requests.HTTPError` from `resp.raise_for_status()`, re-raised by
  the `except` handler once `attempt >= MAX_RETRIES`. -/
  | httpError (status : Nat)
  /-- the transport exception re-raised once `attempt >= MAX_RETRIES`. -/
  | transportExhausted
  /-- The final `RuntimeError` (failed to fetch after the maximum number
  of retries) raised once the `while` guard fails. -/
  | runtimeExhausted
deriving DecidableEq

/-- Result of a terminating `safe_get` run: final outcome, the
`time.sleep` calls in order, and the number of GET requests issued. -/
structure FetchTrace where
  outcome : FetchOutcome
  sleeps : List SleepSpec
  gets : Nat
deriving DecidableEq

/-- The `while attempt < MAX_RETRIES` loop of `safe_get`
(src/etl_connector.py:51-92), one scripted GET outcome consumed per
iteration.  `none` means the script ended before the loop did.  Branches,
in source order: 429 (parse `Retry-After` with default "10", sleep that
exact delay, `attempt += 1`); 200 (empty-after-strip body raises
`ValueError`, otherwise return); 5xx (`attempt += 1`, sleep
`BACKOFF_FACTOR ** attempt`); other statuses via `raise_for_status()`,
which raises for 4xx/5xx (caught by the `except RequestException`
handler, i.e. backoff-retried and re-raised on exhaustion, because
`requests.HTTPError` subclasses `RequestException`) and is a no-op
otherwise (the loop repeats with the same counter); a transport
exception takes the same handler. -/
def safe_get_go (maxRetries : Nat) :
    List GetResult → Nat → List SleepSpec → Nat → Option FetchTrace
  | [], attempt, sleeps, gets =>
    if maxRetries ≤ attempt then some ⟨.runtimeExhausted, sleeps, gets⟩ else none
  | g :: rest, attempt, sleeps, gets =>
    if maxRetries ≤ attempt then some ⟨.runtimeExhausted, sleeps, gets⟩
    else
      match g with
      | .exn =>
        if maxRetries ≤ attempt + 1 then some ⟨.transportExhausted, sleeps, gets + 1⟩
        else safe_get_go maxRetries rest (attempt + 1)
          (sleeps ++ [.backoffExp (attempt + 1)]) (gets + 1)
      | .ok r =>
        if r.status == 429 then
          match pyInt (r.retryAfter.getD "10") with
          | none => some ⟨.retryAfterValueError, sleeps, gets + 1⟩
          | some d =>
            if d < 0 then some ⟨.negativeSleepError, sleeps, gets + 1⟩
            else safe_get_go maxRetries rest (attempt + 1)
              (sleeps ++ [.fixedDelay d]) (gets + 1)
        else if r.status == 200 then
          if (pyStrip r.text).isEmpty then some ⟨.emptyPayload, sleeps, gets + 1⟩
          else some ⟨.success r, sleeps, gets + 1⟩
        else if 500 ≤ r.status && r.status < 600 then
          safe_get_go maxRetries rest (attempt + 1)
            (sleeps ++ [.backoffExp (attempt + 1)]) (gets + 1)
        else if 400 ≤ r.status && r.status < 600 then
          if maxRetries ≤ attempt + 1 then some ⟨.httpError r.status, sleeps, gets + 1⟩
          else safe_get_go maxRetries rest (attempt + 1)
            (sleeps ++ [.backoffExp (attempt + 1)]) (gets + 1)
        else
          safe_get_go maxRetries rest attempt sleeps (gets + 1)

/-- Embedding of `safe_get(url)` (src/etl_connector.py:46-92) over a script of GET
outcomes, with the `MAX_RETRIES` tunable. -/
def safe_get (maxRetries : Nat) (script : List GetResult) : Option FetchTrace :=
  safe_get_go maxRetries script 0 [] 0

/-- A scripted GET outcome the spec calls retryable: a transport failure,
a 429 rate-limit signal, or a 5xx server error. -/
def GetResult.retryable : GetResult → Prop
  | .exn => True
  | .ok r => r.status = 429 ∨ (500 ≤ r.status ∧ r.status < 600)

instance : DecidablePred GetResult.retryable := fun g => by
  cases g with
  | exn => exact .isTrue trivial
  | ok r => unfold GetResult.retryable; infer_instance

/-- Outcome of the one persistence call `collection.insert_many(docs,
ordered=False)`: success with the acknowledged id count, a
`BulkWriteError` whose `details["nInserted"]` counts the documents
inserted before the failure, or any other exception. -/
inductive InsertOutcome where
  | ok (insertedIds : Nat)
  | bulkWriteError (nInserted : Nat)
  | otherError
deriving DecidableEq

/-- The PyMongo contract for a well-formed outcome on a given batch: a full
success acknowledges every document, and a bulk-write error cannot report
more insertions than documents submitted. -/
def InsertOutcome.wf (o : InsertOutcome) (docs : List IPDoc) : Prop :=
  match o with
  | .ok n => n = docs.length
  | .bulkWriteError n => n ≤ docs.length
  | .otherError => True

/-- Embedding of `safe_insert_many(collection, docs)` (src/etl_connector.py:130-146):
returns the inserted count and whether `insert_many` was invoked.  Every
persistence failure is caught (`BulkWriteError` returns the partial
count, anything else returns 0), so the function always returns a value
to its caller. -/
def safe_insert_many (outcome : InsertOutcome) (docs : List IPDoc) : Nat × Bool :=
  if docs.isEmpty then (0, false)
  else
    match outcome with
    | .ok n => (n, true)
    | .bulkWriteError n => (n, true)
    | .otherError => (0, true)

theorem safe_get_go_sleeps_mono (mr : Nat) :
    ∀ (script : List GetResult) (attempt : Nat) (sleeps : List SleepSpec) (gets : Nat)
      (t : FetchTrace), safe_get_go mr script attempt sleeps gets = some t →
      ∃ u, t.sleeps = sleeps ++ u := by
  intro script
  induction script with
  | nil =>
    intro attempt sleeps gets t h
    by_cases hc : mr ≤ attempt <;> simp [safe_get_go, hc] at h
    exact ⟨[], by simp [← h]⟩
  | cons g rest ih =>
    intro attempt sleeps gets t h
    rw [safe_get_go.eq_def] at h; simp only [] at h
    by_cases hc : mr ≤ attempt
    · simp only [if_pos hc, Option.some.injEq] at h
      exact ⟨[], by simp [← h]⟩
    · simp only [if_neg hc] at h
      cases g with
      | exn =>
        by_cases hc2 : mr ≤ attempt + 1
        · simp only [if_pos hc2, Option.some.injEq] at h
          exact ⟨[], by simp [← h]⟩
        · simp only [if_neg hc2] at h
          obtain ⟨u, hu⟩ := ih _ _ _ _ h
          exact ⟨SleepSpec.backoffExp (attempt + 1) :: u, by simp [hu]⟩
      | ok r =>
        by_cases h429 : r.status == 429
        · simp only [h429, if_pos] at h
          cases hpy : pyInt (r.retryAfter.getD "10") with
          | none =>
            rw [hpy] at h
            simp only [Option.some.injEq] at h
            exact ⟨[], by simp [← h]⟩
          | some d =>
            rw [hpy] at h
            by_cases hd : d < 0
            · simp only [if_pos hd, Option.some.injEq] at h
              exact ⟨[], by simp [← h]⟩
            · simp only [if_neg hd] at h
              obtain ⟨u, hu⟩ := ih _ _ _ _ h
              exact ⟨SleepSpec.fixedDelay d :: u, by simp [hu]⟩
        · simp only [Bool.not_eq_true] at h429
          simp only [h429, Bool.false_eq_true, if_false] at h
          by_cases h200 : r.status == 200
          · simp only [h200, if_pos] at h
            by_cases hemp : (pyStrip r.text).isEmpty
            · simp only [if_pos hemp, Option.some.injEq] at h
              exact ⟨[], by simp [← h]⟩
            · simp only [if_neg hemp, Option.some.injEq] at h
              exact ⟨[], by simp [← h]⟩
          · simp only [Bool.not_eq_true] at h200
            simp only [h200, Bool.false_eq_true, if_false] at h
            by_cases h5 : (decide (500 ≤ r.status) && decide (r.status < 600)) = true
            · simp only [h5, if_pos] at h
              obtain ⟨u, hu⟩ := ih _ _ _ _ h
              exact ⟨SleepSpec.backoffExp (attempt + 1) :: u, by simp [hu]⟩
            · simp only [h5, Bool.false_eq_true, if_false] at h
              by_cases h4 : (decide (400 ≤ r.status) && decide (r.status < 600)) = true
              · simp only [h4, if_pos] at h
                by_cases hc2 : mr ≤ attempt + 1
                · simp only [if_pos hc2, Option.some.injEq] at h
                  exact ⟨[], by simp [← h]⟩
                · simp only [if_neg hc2] at h
                  obtain ⟨u, hu⟩ := ih _ _ _ _ h
                  exact ⟨SleepSpec.backoffExp (attempt + 1) :: u, by simp [hu]⟩
              · simp only [h4, Bool.false_eq_true, if_false] at h
                exact ih _ _ _ _ h

theorem safe_get_go_gets_bound (mr : Nat) :
    ∀ (script : List GetResult) (attempt : Nat) (sleeps : List SleepSpec) (gets : Nat)
      (t : FetchTrace), (∀ g ∈ script, g.retryable) →
      safe_get_go mr script attempt sleeps gets = some t →
      t.gets ≤ gets + (mr - attempt) := by
  intro script
  induction script with
  | nil =>
    intro attempt sleeps gets t _ h
    by_cases hc : mr ≤ attempt <;> simp [safe_get_go, hc] at h
    simp [← h]
  | cons g rest ih =>
    intro attempt sleeps gets t hret h
    have hretg : g.retryable := hret g (List.mem_cons_self g rest)
    have hretr : ∀ x ∈ rest, x.retryable := fun x hx => hret x (List.mem_cons_of_mem g hx)
    rw [safe_get_go.eq_def] at h; simp only [] at h
    by_cases hc : mr ≤ attempt
    · simp only [if_pos hc, Option.some.injEq] at h
      simp [← h]
    · simp only [if_neg hc] at h
      cases g with
      | exn =>
        by_cases hc2 : mr ≤ attempt + 1
        · simp only [if_pos hc2, Option.some.injEq] at h
          simp [← h]; omega
        · simp only [if_neg hc2] at h
          have := ih _ _ _ _ hretr h
          omega
      | ok r =>
        by_cases h429 : r.status == 429
        · simp only [h429, if_pos] at h
          cases hpy : pyInt (r.retryAfter.getD "10") with
          | none =>
            rw [hpy] at h
            simp only [Option.some.injEq] at h
            simp [← h]; omega
          | some d =>
            rw [hpy] at h
            by_cases hd : d < 0
            · simp only [if_pos hd, Option.some.injEq] at h
              simp [← h]; omega
            · simp only [if_neg hd] at h
              have := ih _ _ _ _ hretr h
              omega
        · simp only [Bool.not_eq_true] at h429
          simp only [h429, Bool.false_eq_true, if_false] at h
          by_cases h200 : r.status == 200
          · simp only [h200, if_pos] at h
            by_cases hemp : (pyStrip r.text).isEmpty
            · simp only [if_pos hemp, Option.some.injEq] at h
              simp [← h]; omega
            · simp only [if_neg hemp, Option.some.injEq] at h
              simp [← h]; omega
          · simp only [Bool.not_eq_true] at h200
            simp only [h200, Bool.false_eq_true, if_false] at h
            by_cases h5 : (decide (500 ≤ r.status) && decide (r.status < 600)) = true
            · simp only [h5, if_pos] at h
              have := ih _ _ _ _ hretr h
              omega
            · simp only [h5, Bool.false_eq_true, if_false] at h
              rcases hretg with h429p | h5p
              · exact absurd (beq_iff_eq.mpr h429p) (by simp [h429])
              · exact absurd h5 (by simp [h5p.1, h5p.2])

theorem safe_get_go_429_step (mr : Nat) (r : Response) (rest : List GetResult)
    (attempt : Nat) (sleeps : List SleepSpec) (gets : Nat) (d : Int)
    (hlt : attempt < mr) (h429 : r.status = 429)
    (hra : pyInt (r.retryAfter.getD "10") = some d) (hd : 0 ≤ d) :
    safe_get_go mr (.ok r :: rest) attempt sleeps gets =
      safe_get_go mr rest (attempt + 1) (sleeps ++ [.fixedDelay d]) (gets + 1) := by
  rw [safe_get_go.eq_def]
  dsimp only []
  rw [if_neg (by omega), if_pos (by simp [h429]), hra]
  dsimp only []
  rw [if_neg (by omega)]

theorem safe_get_go_429_badheader (mr : Nat) (r : Response) (rest : List GetResult)
    (attempt : Nat) (sleeps : List SleepSpec) (gets : Nat)
    (hlt : attempt < mr) (h429 : r.status = 429)
    (hra : pyInt (r.retryAfter.getD "10") = none) :
    safe_get_go mr (.ok r :: rest) attempt sleeps gets =
      some ⟨.retryAfterValueError, sleeps, gets + 1⟩ := by
  rw [safe_get_go.eq_def]
  dsimp only []
  rw [if_neg (by omega), if_pos (by simp [h429]), hra]

theorem safe_get_go_200_empty (mr : Nat) (r : Response) (rest : List GetResult)
    (attempt : Nat) (sleeps : List SleepSpec) (gets : Nat)
    (hlt : attempt < mr) (h200 : r.status = 200)
    (hemp : (pyStrip r.text).isEmpty = true) :
    safe_get_go mr (.ok r :: rest) attempt sleeps gets =
      some ⟨.emptyPayload, sleeps, gets + 1⟩ := by
  rw [safe_get_go.eq_def]
  dsimp only []
  rw [if_neg (by omega), if_neg (by simp [h200]), if_pos (by simp [h200]), if_pos hemp]

theorem parseLines_all_valid : ∀ (lines : List String) (service : String) (now : Nat),
    (∀ l ∈ (lines.map pyStrip).filter isKeptLine, ip_address_valid (firstToken l) = true) →
    parseLines lines service now =
      ((lines.map pyStrip).filter isKeptLine).map
        (fun l => (⟨firstToken l, service, "blocklist.de/lists", now⟩ : IPDoc)) := by
  intro lines service now
  induction lines with
  | nil => intro _; rfl
  | cons raw rest ih =>
    intro h
    simp only [List.map_cons, List.filter_cons] at h ⊢
    simp only [parseLines, List.filterMap_cons] at ih ⊢
    by_cases hskip : ((pyStrip raw).isEmpty || startsWithHash (pyStrip raw)) = true
    · have hk : isKeptLine (pyStrip raw) = false := by simp [isKeptLine, hskip]
      rw [hk] at h ⊢
      simp only [Bool.false_eq_true, if_false] at h ⊢
      have hpl : parseLine service now raw = none := by
        simp only [parseLine]; rw [if_pos hskip]
      rw [hpl]
      exact ih h
    · have hb : ((pyStrip raw).isEmpty || startsWithHash (pyStrip raw)) = false := by
        simpa using hskip
      have hk : isKeptLine (pyStrip raw) = true := by simp [isKeptLine, hb]
      rw [hk] at h ⊢
      simp only [if_pos] at h ⊢
      have hval : ip_address_valid (firstToken (pyStrip raw)) = true :=
        h _ (List.mem_cons_self _ _)
      have hpl : parseLine service now raw =
          some ⟨firstToken (pyStrip raw), service, "blocklist.de/lists", now⟩ := by
        simp only [parseLine]
        rw [if_neg (by simp [hb]), if_pos hval]
      rw [hpl]
      simp only [List.map_cons, List.cons.injEq]
      exact ⟨trivial, ih (fun l hl => h l (List.mem_cons_of_mem _ hl))⟩

theorem parseLine_invalid (service : String) (now : Nat) (raw : String)
    (h : ip_address_valid (firstToken (pyStrip raw)) = false) :
    parseLine service now raw = none := by
  simp only [parseLine]
  by_cases hskip : ((pyStrip raw).isEmpty || startsWithHash (pyStrip raw)) = true
  · rw [if_pos hskip]
  · rw [if_neg hskip, if_neg (by simp [h])]

theorem parseLines_mem_valid : ∀ (lines : List String) (service : String) (now : Nat)
    (d : IPDoc), d ∈ parseLines lines service now → ip_address_valid d.ip = true := by
  intro lines service now d hd
  simp only [parseLines, List.mem_filterMap] at hd
  obtain ⟨raw, _, hraw⟩ := hd
  simp only [parseLine] at hraw
  by_cases hskip : ((pyStrip raw).isEmpty || startsWithHash (pyStrip raw)) = true
  · rw [if_pos hskip] at hraw; cases hraw
  · rw [if_neg hskip] at hraw
    by_cases hval : ip_address_valid (firstToken (pyStrip raw)) = true
    · rw [if_pos hval] at hraw
      simp only [Option.some.injEq] at hraw
      rw [← hraw]
      exact hval
    · rw [if_neg hval] at hraw; cases hraw

/-- C1: the claim says a 4xx status other than 429 (e.g. 404) makes
`safe_get` fail immediately with an HTTP error, with no sleep and no
retry.  The code violates this: `resp.raise_for_status()` raises
`requests.HTTPError`, a subclass of `requests.RequestException`, so the
transport-failure handler catches it, sleeps `BACKOFF_FACTOR ** attempt`
and retries.  Evaluated at a server answering 404 to every request with
the default `MAX_RETRIES = 5`: five GET requests are issued and four
backoff sleeps are performed before the HTTP error finally propagates. -/
theorem fetch_404_is_backoff_retried :
    safe_get 5 (List.replicate 5 (.ok ⟨404, none, ""⟩)) =
      some ⟨.httpError 404,
        [.backoffExp 1, .backoffExp 2, .backoffExp 3, .backoffExp 4], 5⟩ := by
  decide

/-- C2: for every script of transport failures and retryable (429/5xx)
responses, a terminating `safe_get` run issues at most
`max_retries + 1` GET requests (the loop in fact issues at most
`max_retries`). -/
theorem fetch_request_bound (maxRetries : Nat) (script : List GetResult)
    (t : FetchTrace) (hret : ∀ g ∈ script, g.retryable)
    (h : safe_get maxRetries script = some t) :
    t.gets ≤ maxRetries + 1 := by
  have := safe_get_go_gets_bound maxRetries script 0 [] 0 t hret h
  omega

/-- Witness for C2 at six consecutive transport failures with
`MAX_RETRIES = 5`: the run fails after 5 requests, within the bound. -/
theorem fetch_request_bound_witness :
    (∀ g ∈ List.replicate 6 GetResult.exn, g.retryable) ∧
    safe_get 5 (List.replicate 6 GetResult.exn) =
      some ⟨.transportExhausted,
        [.backoffExp 1, .backoffExp 2, .backoffExp 3, .backoffExp 4], 5⟩ ∧
    (⟨.transportExhausted,
        [.backoffExp 1, .backoffExp 2, .backoffExp 3, .backoffExp 4], 5⟩ :
      FetchTrace).gets ≤ 5 + 1 :=
  ⟨by decide, by decide,
    fetch_request_bound 5 (List.replicate 6 GetResult.exn)
      ⟨.transportExhausted,
        [.backoffExp 1, .backoffExp 2, .backoffExp 3, .backoffExp 4], 5⟩
      (by decide) (by decide)⟩

/-- C3: on a body whose kept (non-blank, non-comment) lines all start
with a token accepted by `ipaddress.ip_address`, `parse_ip_list` returns
exactly one document per kept line, in original order, each carrying the
token as `ip`, the given service, and the one shared capture timestamp. -/
theorem parse_one_doc_per_kept_line (text service : String) (now : Nat)
    (h : ∀ l ∈ keptLines text, ip_address_valid (firstToken l) = true) :
    parse_ip_list text service now =
      (keptLines text).map
        (fun l => (⟨firstToken l, service, "blocklist.de/lists", now⟩ : IPDoc)) :=
  parseLines_all_valid (pySplitlines text) service now h

/-- Witness for C3 at the end-to-end example of the spec: the body
`"1.2.3.4\n#comment\n5.6.7.8 extra-field\n"` for service `ssh` yields
exactly the two documents `1.2.3.4` and `5.6.7.8`, sharing the capture
timestamp. -/
theorem parse_one_doc_per_kept_line_witness :
    (∀ l ∈ keptLines "1.2.3.4\n#comment\n5.6.7.8 extra-field\n",
      ip_address_valid (firstToken l) = true) ∧
    parse_ip_list "1.2.3.4\n#comment\n5.6.7.8 extra-field\n" "ssh" 7 =
      [⟨"1.2.3.4", "ssh", "blocklist.de/lists", 7⟩,
       ⟨"5.6.7.8", "ssh", "blocklist.de/lists", 7⟩] :=
  ⟨by decide,
    (parse_one_doc_per_kept_line "1.2.3.4\n#comment\n5.6.7.8 extra-field\n" "ssh" 7
      (by decide)).trans (by decide)⟩

/-- C4: a line whose first token fails `ipaddress.ip_address` validation
produces no document — the parse of the whole body equals the parse of
the body with that line removed — and every document returned carries a
token that passed validation. -/
theorem parse_drops_invalid_line (text service : String) (now : Nat)
    (L1 L2 : List String) (bad : String)
    (hsplit : pySplitlines text = L1 ++ bad :: L2)
    (hbad : ip_address_valid (firstToken (pyStrip bad)) = false) :
    parse_ip_list text service now = parseLines (L1 ++ L2) service now ∧
    ∀ d ∈ parse_ip_list text service now, ip_address_valid d.ip = true := by
  constructor
  · rw [parse_ip_list, hsplit]
    simp only [parseLines, List.filterMap_append, List.filterMap_cons,
      parseLine_invalid service now bad hbad]
  · intro d hd
    exact parseLines_mem_valid (pySplitlines text) service now d hd

/-- Witness for C4: in the body `"1.2.3.4\n999.999.999.999\n5.6.7.8\n"`
the malformed middle line is dropped and the parse equals that of the
two sibling lines alone. -/
theorem parse_drops_invalid_line_witness :
    pySplitlines "1.2.3.4\n999.999.999.999\n5.6.7.8\n" =
      ["1.2.3.4"] ++ "999.999.999.999" :: ["5.6.7.8"] ∧
    ip_address_valid (firstToken (pyStrip "999.999.999.999")) = false ∧
    parse_ip_list "1.2.3.4\n999.999.999.999\n5.6.7.8\n" "ssh" 0 =
      parseLines (["1.2.3.4"] ++ ["5.6.7.8"]) "ssh" 0 :=
  ⟨by decide, by decide,
    (parse_drops_invalid_line "1.2.3.4\n999.999.999.999\n5.6.7.8\n" "ssh" 0
      ["1.2.3.4"] ["5.6.7.8"] "999.999.999.999" (by decide) (by decide)).1⟩

/-- C5: on a non-empty batch `safe_insert_many` always returns a count to
its caller (the model is a total function: both `BulkWriteError` and any
other exception are caught): a bulk-write error returns the count of
documents inserted before the failure, any other failure returns 0, and
under the PyMongo reporting contract the count never exceeds the batch
size. -/
theorem insert_bulk_error_returns_count (outcome : InsertOutcome)
    (docs : List IPDoc) (hne : docs ≠ []) (hwf : outcome.wf docs) :
    (∀ n, outcome = .bulkWriteError n → (safe_insert_many outcome docs).1 = n) ∧
    (outcome = .otherError → (safe_insert_many outcome docs).1 = 0) ∧
    (safe_insert_many outcome docs).1 ≤ docs.length := by
  have hne2 : docs.isEmpty = false := by
    cases docs with
    | nil => exact absurd rfl hne
    | cons a l => rfl
  cases outcome with
  | ok n =>
    refine ⟨?_, ?_, ?_⟩
    · intro m hm; cases hm
    · intro hm; cases hm
    · simp only [safe_insert_many, hne2, Bool.false_eq_true, if_false]
      exact le_of_eq hwf
  | bulkWriteError n =>
    refine ⟨?_, ?_, ?_⟩
    · intro m hm
      cases hm
      simp [safe_insert_many, hne2]
    · intro hm; cases hm
    · simp only [safe_insert_many, hne2, Bool.false_eq_true, if_false]
      exact hwf
  | otherError =>
    refine ⟨?_, ?_, ?_⟩
    · intro m hm; cases hm
    · intro _
      simp [safe_insert_many, hne2]
    · simp [safe_insert_many, hne2]

/-- Witness for C5: a batch of two documents of which the persistence
layer rejects one reports 1 inserted, within the batch size. -/
theorem insert_bulk_error_returns_count_witness :
    (safe_insert_many (InsertOutcome.bulkWriteError 1)
      [⟨"1.2.3.4", "ssh", "blocklist.de/lists", 0⟩,
       ⟨"5.6.7.8", "ssh", "blocklist.de/lists", 0⟩]).1 = 1 ∧
    (safe_insert_many (InsertOutcome.bulkWriteError 1)
      [⟨"1.2.3.4", "ssh", "blocklist.de/lists", 0⟩,
       ⟨"5.6.7.8", "ssh", "blocklist.de/lists", 0⟩]).1 ≤ 2 := by
  have h := insert_bulk_error_returns_count (InsertOutcome.bulkWriteError 1)
    [⟨"1.2.3.4", "ssh", "blocklist.de/lists", 0⟩,
     ⟨"5.6.7.8", "ssh", "blocklist.de/lists", 0⟩]
    (by decide) (by show (1 : Nat) ≤ 2; decide)
  exact ⟨h.1 1 rfl, h.2.2⟩

/-- C6: on the empty batch `safe_insert_many` returns 0 and does not
invoke `insert_many` at all, whatever the persistence layer would have
done. -/
theorem insert_empty_batch_noop (outcome : InsertOutcome) :
    safe_insert_many outcome [] = (0, false) := by
  cases outcome <;> rfl

/-- C7: on a 429 response whose `Retry-After` header is absent or parses
to a non-negative integer `d` (10 when absent), the first sleep of the
run is exactly the fixed delay `d` — the rate-limit sleep site, not the
backoff site — and its duration is `d` seconds for every backoff
multiplier `B`. -/
theorem fetch_429_sleeps_retry_after (maxRetries : Nat) (ra : Option String)
    (txt : String) (rest : List GetResult) (d : Int) (t : FetchTrace)
    (hmr : 0 < maxRetries) (hra : pyInt (ra.getD "10") = some d) (hd : 0 ≤ d)
    (h : safe_get maxRetries (.ok ⟨429, ra, txt⟩ :: rest) = some t) :
    t.sleeps.head? = some (.fixedDelay d) ∧
    ∀ B : ℚ, ((t.sleeps.map (SleepSpec.duration B)).head? = some (d : ℚ)) := by
  rw [safe_get, safe_get_go_429_step maxRetries ⟨429, ra, txt⟩ rest 0 [] 0 d
    hmr rfl hra hd] at h
  obtain ⟨u, hu⟩ := safe_get_go_sleeps_mono maxRetries rest 1 [.fixedDelay d] 1 t h
  exact ⟨by rw [hu]; rfl, fun B => by rw [hu]; rfl⟩

/-- Witness for C7 at the example of the spec: `Retry-After: 5` sleeps exactly
5 seconds (for the default backoff multiplier 1.5, not 1.5 seconds), and
an absent header sleeps 10 seconds. -/
theorem fetch_429_sleeps_retry_after_witness :
    safe_get 5 [.ok ⟨429, some "5", ""⟩, .ok ⟨200, none, "x"⟩] =
      some ⟨.success ⟨200, none, "x"⟩, [.fixedDelay 5], 2⟩ ∧
    (⟨.success ⟨200, none, "x"⟩, [.fixedDelay 5], 2⟩ :
        FetchTrace).sleeps.head? = some (.fixedDelay 5) ∧
    ((⟨.success ⟨200, none, "x"⟩, [.fixedDelay 5], 2⟩ :
        FetchTrace).sleeps.map (SleepSpec.duration (3/2))).head? = some ((5 : Int) : ℚ) ∧
    safe_get 5 [.ok ⟨429, none, ""⟩, .ok ⟨200, none, "x"⟩] =
      some ⟨.success ⟨200, none, "x"⟩, [.fixedDelay 10], 2⟩ :=
  ⟨by decide,
    (fetch_429_sleeps_retry_after 5 (some "5") "" [.ok ⟨200, none, "x"⟩] 5 _
      (by decide) (by decide) (by decide) (by decide)).1,
    (fetch_429_sleeps_retry_after 5 (some "5") "" [.ok ⟨200, none, "x"⟩] 5 _
      (by decide) (by decide) (by decide) (by decide)).2 (3/2),
    by decide⟩

/-- C8: with `MAX_RETRIES = 5`, a server answering 500 three times and
then 200 with a non-empty body makes `safe_get` succeed after exactly
four requests, having slept the backoff sequence `B^1, B^2, B^3` — for
the default `BACKOFF_FACTOR = 1.5` the durations 1.5s, 2.25s, 3.375s. -/
theorem fetch_500_three_times_then_200 :
    safe_get 5 [.ok ⟨500, none, ""⟩, .ok ⟨500, none, ""⟩, .ok ⟨500, none, ""⟩,
        .ok ⟨200, none, "1.2.3.4\n"⟩] =
      some ⟨.success ⟨200, none, "1.2.3.4\n"⟩,
        [.backoffExp 1, .backoffExp 2, .backoffExp 3], 4⟩ ∧
    [SleepSpec.backoffExp 1, .backoffExp 2, .backoffExp 3].map
        (SleepSpec.duration (3/2)) = [3/2, 9/4, 27/8] :=
  ⟨by decide, by norm_num [SleepSpec.duration]⟩

/-- C9: a 200 response whose body is empty after stripping makes
`safe_get` raise the empty-payload `ValueError` at once: the error is not
caught by the `except RequestException` handler, so the run ends after
that single request with no sleep. -/
theorem fetch_200_empty_fails_immediately (maxRetries : Nat) (ra : Option String)
    (txt : String) (rest : List GetResult)
    (hmr : 0 < maxRetries) (hemp : (pyStrip txt).isEmpty = true) :
    safe_get maxRetries (.ok ⟨200, ra, txt⟩ :: rest) =
      some ⟨.emptyPayload, [], 1⟩ := by
  rw [safe_get]
  exact safe_get_go_200_empty maxRetries ⟨200, ra, txt⟩ rest 0 [] 0 hmr rfl hemp

/-- Witness for C9 at a whitespace-only 200 body. -/
theorem fetch_200_empty_fails_immediately_witness :
    (0 < 5 ∧ (pyStrip " \n").isEmpty = true) ∧
    safe_get 5 [.ok ⟨200, none, " \n"⟩, .exn] = some ⟨.emptyPayload, [], 1⟩ :=
  ⟨⟨by decide, by decide⟩,
    fetch_200_empty_fails_immediately 5 none " \n" [.exn] (by decide) (by decide)⟩

/-- C10: a 429 response carrying a `Retry-After` value that `int()`
cannot parse makes `safe_get` raise that `ValueError` at once — a
`ValueError` is not a `RequestException`, so the retry handler does not
catch it: no fallback to the 10-second default, no sleep, no retry. -/
theorem fetch_429_bad_header_valueerror (maxRetries : Nat) (hv : String)
    (txt : String) (rest : List GetResult)
    (hmr : 0 < maxRetries) (hbad : pyInt hv = none) :
    safe_get maxRetries (.ok ⟨429, some hv, txt⟩ :: rest) =
      some ⟨.retryAfterValueError, [], 1⟩ := by
  rw [safe_get]
  exact safe_get_go_429_badheader maxRetries ⟨429, some hv, txt⟩ rest 0 [] 0
    hmr rfl hbad

/-- Witness for C10 at `Retry-After: soon`. -/
theorem fetch_429_bad_header_valueerror_witness :
    (0 < 5 ∧ pyInt "soon" = none) ∧
    safe_get 5 [.ok ⟨429, some "soon", ""⟩, .exn] =
      some ⟨.retryAfterValueError, [], 1⟩ :=
  ⟨⟨by decide, by decide⟩,
    fetch_429_bad_header_valueerror 5 "soon" "" [.exn] (by decide) (by decide)⟩
